import Mathlib

/-!
Verification development for the Asteracer simulation core
(src/pyasteracer/__init__.py and src/pyasteracer/solver.py).

The Python code is shallowly embedded: every function below is a direct
translation of the corresponding Python function.  Machine integers
(numpy int64 positions/velocities, int8 instruction components) are
modelled as Lean Int; the spec guarantees arena quantities are small
enough that 64-bit arithmetic never overflows, while the int8 cast in
the Instruction constructor is modelled explicitly by a wrapping
conversion (toInt8).  Python floor division (the // operator, which
rounds toward negative infinity) is Int.fdiv; Python math.isqrt is
the exact integer square root isqrt below, applied to the
(non-negative) squared distance.
-/

namespace Asteracer

/-- Squared Euclidean distance between two points,
translation of distance_squared in pyasteracer. -/
def distance_squared (x1 y1 x2 y2 : Int) : Int :=
  (x1 - x2) ^ 2 + (y1 - y2) ^ 2

/-- Fuelled integer square root (binary recursion); the fuel only
drives structural recursion so that the kernel can evaluate it. -/
def isqrtAux : Nat → Nat → Nat
  | 0, _ => 0
  | fuel + 1, n =>
    if n < 2 then n
    else if (2 * isqrtAux fuel (n / 4) + 1) * (2 * isqrtAux fuel (n / 4) + 1) ≤ n
      then 2 * isqrtAux fuel (n / 4) + 1
      else 2 * isqrtAux fuel (n / 4)

/-- Exact integer square root, the model of Python math.isqrt:
the unique r with r * r ≤ n < (r + 1) * (r + 1) (see isqrt_spec). -/
def isqrt (n : Nat) : Nat := isqrtAux n n

/-- Integer Euclidean distance (math.isqrt of the squared distance),
translation of euclidean_distance in pyasteracer. -/
def euclidean_distance (x1 y1 x2 y2 : Int) : Int :=
  Int.ofNat (isqrt (distance_squared x1 y1 x2 y2).toNat)

/-- np.clip of v into the interval between lo and hi. -/
def clip (v lo hi : Int) : Int :=
  min (max v lo) hi

/-- Wrapping conversion to a signed 8-bit integer, the InstType(v) cast
(numpy int8) performed at the end of the Instruction constructor. -/
def toInt8 (v : Int) : Int :=
  (v + 128) % 256 - 128

/-- MAX_ACCELERATION of the Instruction class. -/
def MAX_ACCELERATION : Int := 127

/-- An instruction: the stored acceleration pair. -/
structure Instruction where
  vx : Int
  vy : Int
deriving DecidableEq

/-- The Instruction constructor: normalize the proposed pair onto the
disk of radius 127 when it lies outside, then cast to int8.
Translation of Instruction.__init__. -/
def Instruction.make (vx vy : Int) : Instruction :=
  if distance_squared vx vy 0 0 > MAX_ACCELERATION ^ 2 then
    let distance := euclidean_distance vx vy 0 0
    Instruction.mk
      (toInt8 (clip ((vx * MAX_ACCELERATION).fdiv distance)
        (-MAX_ACCELERATION) MAX_ACCELERATION))
      (toInt8 (clip ((vy * MAX_ACCELERATION).fdiv distance)
        (-MAX_ACCELERATION) MAX_ACCELERATION))
  else
    Instruction.mk (toInt8 vx) (toInt8 vy)

/-- Instruction.up: built from the int8 minimum, then normalized. -/
def Instruction.up : Instruction := Instruction.make 0 (-128)

/-- Instruction.down: built from the int8 maximum. -/
def Instruction.down : Instruction := Instruction.make 0 127

/-- Instruction.left: built from the int8 minimum, then normalized. -/
def Instruction.left : Instruction := Instruction.make (-128) 0

/-- Instruction.right: built from the int8 maximum. -/
def Instruction.right : Instruction := Instruction.make 127 0

/-- The racer dataclass. -/
structure Racer where
  x : Int
  y : Int
  vx : Int
  vy : Int
  radius : Int
deriving DecidableEq

/-- The (frozen) asteroid dataclass. -/
structure Asteroid where
  x : Int
  y : Int
  radius : Int
deriving DecidableEq

/-- Goal = Asteroid, as in the source. -/
abbrev Goal := Asteroid

/-- The bounding-box dataclass. -/
structure BoundingBox where
  min_x : Int
  min_y : Int
  max_x : Int
  max_y : Int
deriving DecidableEq

/-- TickFlag.COLLIDED. -/
def TickFlag.COLLIDED : Nat := 1

/-- TickFlag.GOAL_REACHED. -/
def TickFlag.GOAL_REACHED : Nat := 2

/-- The simulation state.  The spatial grid (built once by the Python
constructor using floating-point cell arithmetic) is carried as data:
the cell mapping (the defaultdict) and the cell function
_coordinate_to_grid are fields.  No claim below depends on the cell
contents, only on the lookup discipline of the tick path and on the
fact that no simulation operation ever modifies these two fields.
The Python list used as the push/pop stack grows at its end; it is
modelled here with the stack top as the list head. -/
structure Simulation where
  initial_racer : Racer
  racer : Racer
  asteroids : List Asteroid
  goals : List Goal
  bounding_box : Option BoundingBox
  grid : Int × Int → List Asteroid
  coordinate_to_grid : Int → Int → Int × Int
  reached_goals : List Bool
  pushed_states : List (Racer × List Bool)

/-- Simulation._move_racer: drag (floor division by Python //),
acceleration, translation. -/
def Simulation.move_racer (s : Simulation) (instruction : Instruction) : Simulation :=
  let vx := (s.racer.vx * 9).fdiv 10 + instruction.vx
  let vy := (s.racer.vy * 9).fdiv 10 + instruction.vy
  { s with racer :=
    { s.racer with vx := vx, vy := vy, x := s.racer.x + vx, y := s.racer.y + vy } }

/-- The asteroid branch of Simulation._push_out, acting on the racer:
returns the updated racer and whether the racer was pushed out. -/
def Racer.push_out_asteroid (r : Racer) (obj : Asteroid) : Racer × Bool :=
  if distance_squared r.x r.y obj.x obj.y > (r.radius + obj.radius) ^ 2 then
    (r, false)
  else
    let nx := r.x - obj.x
    let ny := r.y - obj.y
    let distance := euclidean_distance r.x r.y obj.x obj.y
    let push_by := distance - (r.radius + obj.radius)
    ({ r with x := r.x - (nx * push_by).fdiv distance,
              y := r.y - (ny * push_by).fdiv distance }, true)

/-- The bounding-box branch of Simulation._push_out: the four wall
clamps, applied sequentially exactly as in the source (the second x
test reads the x already updated by the first, and likewise for y). -/
def Racer.push_out_bounding (r : Racer) (obj : BoundingBox) : Racer × Bool :=
  let x1 := if r.x - r.radius < obj.min_x then obj.min_x + r.radius else r.x
  let x2 := if x1 + r.radius > obj.max_x then obj.max_x - r.radius else x1
  let y1 := if r.y - r.radius < obj.min_y then obj.min_y + r.radius else r.y
  let y2 := if y1 + r.radius > obj.max_y then obj.max_y - r.radius else y1
  let collided :=
    decide (r.x - r.radius < obj.min_x) || decide (x1 + r.radius > obj.max_x) ||
    decide (r.y - r.radius < obj.min_y) || decide (y1 + r.radius > obj.max_y)
  ({ r with x := x2, y := y2 }, collided)

/-- The asteroid sweep of one collision-resolution pass: walk the cell
list in order, push out of the first colliding asteroid and stop (the
break in _resolve_collisions). -/
def Racer.push_out_first (r : Racer) : List Asteroid → Racer × Bool
  | [] => (r, false)
  | a :: rest =>
    let p := Racer.push_out_asteroid r a
    if p.2 then (p.1, true) else Racer.push_out_first r rest

/-- One pass of the loop in Simulation._resolve_collisions: the
asteroid sweep over the cell of the racer center, then the
bounding-box clamp; returns whether this pass collided. -/
def Simulation.resolve_pass (s : Simulation) : Simulation × Bool :=
  let cell := s.coordinate_to_grid s.racer.x s.racer.y
  let pa := Racer.push_out_first s.racer (s.grid cell)
  let pb := match s.bounding_box with
    | some bb => Racer.push_out_bounding pa.1 bb
    | none => (pa.1, false)
  ({ s with racer := pb.1 }, pa.2 || pb.2)

/-- The pass loop of Simulation._resolve_collisions: up to
MAX_COLLISION_RESOLUTIONS passes, stopping after the first pass in
which nothing moved; the collided flag is sticky. -/
def Simulation.resolve_loop : Nat → Simulation → Bool → Simulation × Bool
  | 0, s, collided => (s, collided)
  | n + 1, s, collided =>
    let p := s.resolve_pass
    if p.2 then Simulation.resolve_loop n p.1 true else (p.1, collided)

/-- Simulation.MAX_COLLISION_RESOLUTIONS. -/
def MAX_COLLISION_RESOLUTIONS : Nat := 5

/-- Simulation._resolve_collisions: the pass loop followed by the
one-time velocity halving (Python floor division by 2) when any pass
collided. -/
def Simulation.resolve_collisions (s : Simulation) : Simulation × Bool :=
  let p := Simulation.resolve_loop MAX_COLLISION_RESOLUTIONS s false
  if p.2 then
    ({ p.1 with racer :=
       { p.1.racer with vx := (p.1.racer.vx * 1).fdiv 2,
                        vy := (p.1.racer.vy * 1).fdiv 2 } }, true)
  else
    (p.1, false)

/-- The per-goal loop of Simulation._check_goal, walking the goal list
and the reached list in parallel; returns the updated reached list and
whether a previously unreached goal was newly reached. -/
def check_goal_list (r : Racer) : List Goal → List Bool → List Bool × Bool
  | g :: gs, b :: bs =>
    let rest := check_goal_list r gs bs
    if distance_squared r.x r.y g.x g.y ≤ (r.radius + g.radius) ^ 2 then
      (true :: rest.1, !b || rest.2)
    else
      (b :: rest.1, rest.2)
  | _, bs => (bs, false)

/-- Simulation._check_goal. -/
def Simulation.check_goal (s : Simulation) : Simulation × Bool :=
  let p := check_goal_list s.racer s.goals s.reached_goals
  ({ s with reached_goals := p.1 }, p.2)

/-- Simulation.tick: move, resolve collisions, check goals, and return
the new state together with the flag bitmask. -/
def Simulation.tick (s : Simulation) (instruction : Instruction) : Simulation × Nat :=
  let s1 := s.move_racer instruction
  let p2 := s1.resolve_collisions
  let p3 := p2.1.check_goal
  (p3.1, (if p2.2 then TickFlag.COLLIDED else 0) |||
    (if p3.2 then TickFlag.GOAL_REACHED else 0))

/-- Simulation.restart: restore the initial position, zero the
velocity, clear all reached flags (the radius is not touched). -/
def Simulation.restart (s : Simulation) : Simulation :=
  { s with
    racer := { s.racer with
      x := s.initial_racer.x, y := s.initial_racer.y, vx := 0, vy := 0 },
    reached_goals := s.reached_goals.map (fun _ => false) }

/-- Simulation.push: append a copy of (racer, reached_goals) to the
stack (stack top = list head in this model). -/
def Simulation.push (s : Simulation) : Simulation :=
  { s with pushed_states := (s.racer, s.reached_goals) :: s.pushed_states }

/-- Simulation.pop: remove the top entry and install it; the Python
assertion failure on an empty stack is modelled by none. -/
def Simulation.pop (s : Simulation) : Option Simulation :=
  match s.pushed_states with
  | [] => none
  | (r, g) :: rest =>
    some { s with racer := r, reached_goals := g, pushed_states := rest }

/-- Simulation.apply: install a copy of the top entry without removing
it; the Python IndexError on an empty stack is modelled by none. -/
def Simulation.apply (s : Simulation) : Option Simulation :=
  match s.pushed_states with
  | [] => none
  | (r, g) :: _ =>
    some { s with racer := r, reached_goals := g }

/-- Run a finite sequence of ticks, discarding the flags. -/
def Simulation.run_ticks (s : Simulation) : List Instruction → Simulation
  | [] => s
  | i :: rest => (s.tick i).1.run_ticks rest

/-- The Simulation constructor called with (racer, asteroids, goals,
bounding_box): snapshots the racer, allocates the all-false reached
list and the empty stack.  The spatial grid the Python constructor
builds uses IEEE-double cell arithmetic; its cell structure is not
modelled (no claim below depends on the cell contents), so the
degenerate single-cell mapping stands in for the built grid. -/
def Simulation.construct (racer : Racer) (asteroids : List Asteroid)
    (goals : List Goal) (bounding_box : Option BoundingBox) : Simulation :=
  { initial_racer := racer
    racer := racer
    asteroids := asteroids
    goals := goals
    bounding_box := bounding_box
    grid := fun _ => asteroids
    coordinate_to_grid := fun _ _ => (0, 0)
    reached_goals := goals.map (fun _ => false)
    pushed_states := [] }

/-- Simulation.save, with the file modelled as its list of lines, each
line the list of the integers printed on it.  The source reads
self.bounding_box members unconditionally, so saving a simulation
without a bounding box fails (none). -/
def Simulation.save (s : Simulation) : Option (List (List Int)) :=
  match s.bounding_box with
  | none => none
  | some bb =>
    some ([s.racer.x, s.racer.y, s.racer.radius] ::
      [bb.min_x, bb.min_y, bb.max_x, bb.max_y] ::
      [(s.asteroids.length : Int)] ::
      (s.asteroids.map (fun a => [a.x, a.y, a.radius]) ++
        ([(s.goals.length : Int)] ::
          s.goals.map (fun g => [g.x, g.y, g.radius]))))

/-- Parse one x/y/radius line; extra tokens on the line are ignored,
as Python indexing parts[0..2] ignores them. -/
def parse_circle_line (line : List Int) : Option Asteroid :=
  match line with
  | x :: y :: radius :: _ => some (Asteroid.mk x y radius)
  | _ => none

/-- Simulation.load.  Faithful to the source, including its
bounding-box line bug: the source builds
BoundingBox(parts[0], parts[1], parts[2], parts[2]), reading token 2
into BOTH max_x and max_y and never reading token 3.  Missing lines or
tokens (Python IndexError) and non-singleton count lines (int() on a
multi-token string raises) are none.  A negative count on a count line
(where Python would fall into negative-index wraparound) is not
modelled and returns none; save never emits one. -/
def Simulation.load (lines : List (List Int)) : Option Simulation := do
  let l0 ← lines.get? 0
  let racer ← match l0 with
    | x :: y :: radius :: _ => some (Racer.mk x y 0 0 radius)
    | _ => none
  let l1 ← lines.get? 1
  let bb ← match l1 with
    | a :: b :: c :: _ => some (BoundingBox.mk a b c c)
    | _ => none
  let l2 ← lines.get? 2
  let asteroid_count ← match l2 with
    | [n] => some n
    | _ => none
  if asteroid_count < 0 then none
  else do
    let na := asteroid_count.toNat
    let astLines := (lines.drop 3).take na
    if astLines.length < na then none
    else do
      let asteroids ← astLines.mapM parse_circle_line
      let lg ← lines.get? (3 + na)
      let goal_count ← match lg with
        | [n] => some n
        | _ => none
      if goal_count < 0 then none
      else do
        let ng := goal_count.toNat
        let goalLines := (lines.drop (4 + na)).take ng
        if goalLines.length < ng then none
        else do
          let goals ← goalLines.mapM parse_circle_line
          return Simulation.construct racer asteroids goals (some bb)

/-- solver.is_point_in_bounds, translated verbatim: note that both
coordinates of the point are compared against the x limits of the
bounding box. -/
def is_point_in_bounds (bb : BoundingBox) (p : Int × Int) : Bool :=
  decide (bb.min_x ≤ p.1) && decide (p.1 ≤ bb.max_x) &&
  decide (bb.min_x ≤ p.2) && decide (p.2 ≤ bb.max_x)

/-- The in-bounds predicate as the spec words it: each coordinate
against its own axis limits. -/
def is_point_in_bounds_spec (bb : BoundingBox) (p : Int × Int) : Bool :=
  decide (bb.min_x ≤ p.1) && decide (p.1 ≤ bb.max_x) &&
  decide (bb.min_y ≤ p.2) && decide (p.2 ≤ bb.max_y)

/-- The racer disk lies inside the bounding box. -/
abbrev BoundingBox.containsRacer (bb : BoundingBox) (r : Racer) : Prop :=
  bb.min_x ≤ r.x - r.radius ∧ r.x + r.radius ≤ bb.max_x ∧
  bb.min_y ≤ r.y - r.radius ∧ r.y + r.radius ≤ bb.max_y

/-- Uniformity of the racer radius across a simulation state: the
stacked snapshots carry the same radius as the current racer. -/
abbrev Simulation.radiusUniform (s : Simulation) : Prop :=
  ∀ p ∈ s.pushed_states, p.1.radius = s.racer.radius

/-- A concrete instruction: the normalized zero acceleration. -/
def idle : Instruction := Instruction.make 0 0

/-- A box too small for the racer disk: radius 1 in a 1-by-1 arena. -/
def tiny_sim : Simulation :=
  Simulation.construct (Racer.mk 0 0 0 0 1) [] [] (some (BoundingBox.mk 0 0 1 1))

/-- A comfortable arena: radius 1 racer centered in a 10-by-10 box. -/
def boxed_sim : Simulation :=
  Simulation.construct (Racer.mk 5 5 0 0 1) [] [] (some (BoundingBox.mk 0 0 10 10))

/-- One goal placed at the racer start, reached on the first tick. -/
def goal_sim : Simulation :=
  Simulation.construct (Racer.mk 0 0 0 0 1) [] [Asteroid.mk 0 0 1]
    (some (BoundingBox.mk (-10) (-10) 10 10))

/-- A free-flying racer with negative x velocity and no arena. -/
def drag_sim : Simulation :=
  Simulation.construct (Racer.mk 0 0 (-5) 0 1) [] [] none

/-- A simulation whose bounding box has max_x different from max_y. -/
def roundtrip_sim : Simulation :=
  Simulation.construct (Racer.mk 1 2 0 0 3) [Asteroid.mk 4 5 6]
    [Asteroid.mk 7 8 9] (some (BoundingBox.mk 0 0 3 7))

end Asteracer

namespace Asteracer

theorem isqrtAux_spec (fuel : Nat) : ∀ n : Nat, n ≤ fuel →
    isqrtAux fuel n * isqrtAux fuel n ≤ n ∧
      n < (isqrtAux fuel n + 1) * (isqrtAux fuel n + 1) := by
  induction fuel with
  | zero =>
    intro n hn
    have hn0 : n = 0 := by omega
    subst hn0
    simp [isqrtAux]
  | succ fuel ih =>
    intro n hn
    by_cases h2 : n < 2
    · have hn01 : n = 0 ∨ n = 1 := by omega
      rcases hn01 with rfl | rfl
      · simp [isqrtAux]
      · simp [isqrtAux]
    · have hdiv : n / 4 ≤ fuel := by omega
      obtain ⟨h1, h2d⟩ := ih (n / 4) hdiv
      simp only [isqrtAux, if_neg h2]
      generalize hs : isqrtAux fuel (n / 4) = s at h1 h2d
      have h4 : 4 * (s * s) ≤ n := by omega
      have hexp : 4 * ((s + 1) * (s + 1)) = (2 * s + 1 + 1) * (2 * s + 1 + 1) := by ring
      have h5 : n < (2 * s + 1 + 1) * (2 * s + 1 + 1) := by omega
      by_cases hc : (2 * s + 1) * (2 * s + 1) ≤ n
      · rw [if_pos hc]
        exact ⟨hc, h5⟩
      · rw [if_neg hc]
        have hsq : 2 * s * (2 * s) = 4 * (s * s) := by ring
        exact ⟨by omega, by omega⟩

/-- isqrt is the exact integer square root, as math.isqrt is. -/
theorem isqrt_spec (n : Nat) :
    isqrt n * isqrt n ≤ n ∧ n < (isqrt n + 1) * (isqrt n + 1) :=
  isqrtAux_spec n n le_rfl

theorem toInt8_eq_of_bounds (v : Int) (h1 : -128 ≤ v) (h2 : v ≤ 127) :
    toInt8 v = v := by
  unfold toInt8
  omega

theorem clip_bounds (v lo hi : Int) (h : lo ≤ hi) :
    lo ≤ clip v lo hi ∧ clip v lo hi ≤ hi := by
  unfold clip
  simp only [min_def, max_def]
  split_ifs <;> omega

theorem distance_squared_zero (vx vy : Int) :
    distance_squared vx vy 0 0 = vx ^ 2 + vy ^ 2 := by
  unfold distance_squared
  ring

/-- Claim C2, counterexample: constructing from the stored pair of the
instruction built from (-92, 90) changes the stored pair (normalization
is not idempotent), and the instruction built from (1, 127) stores a
pair with vx^2 + vy^2 = 16130 > 127^2. -/
theorem claim_C2_counterexample :
    Instruction.make (Instruction.make (-92) 90).vx (Instruction.make (-92) 90).vy
        ≠ Instruction.make (-92) 90 ∧
      Instruction.make (-92) 90 = Instruction.mk (-92) 89 ∧
      Instruction.make (Instruction.make (-92) 90).vx (Instruction.make (-92) 90).vy
        = Instruction.mk (-92) 88 ∧
      ¬ ((Instruction.make 1 127).vx ^ 2 + (Instruction.make 1 127).vy ^ 2
        ≤ MAX_ACCELERATION ^ 2) := by
  decide

/-- Claim C2, amended: every constructed instruction stores components
inside [-127, 127]; a proposed pair already satisfying
vx^2 + vy^2 ≤ 127^2 is stored unchanged, and for those pairs
re-construction from the stored pair is the identity.  (Idempotence
and the disk bound fail for general inputs: see the counterexample.) -/
theorem claim_C2_amended (vx vy : Int) :
    (-127 ≤ (Instruction.make vx vy).vx ∧ (Instruction.make vx vy).vx ≤ 127 ∧
      -127 ≤ (Instruction.make vx vy).vy ∧ (Instruction.make vx vy).vy ≤ 127) ∧
    (vx ^ 2 + vy ^ 2 ≤ MAX_ACCELERATION ^ 2 →
      Instruction.make vx vy = Instruction.mk vx vy ∧
      Instruction.make (Instruction.make vx vy).vx (Instruction.make vx vy).vy
        = Instruction.make vx vy) := by
  have hM : MAX_ACCELERATION = 127 := rfl
  by_cases h : distance_squared vx vy 0 0 > MAX_ACCELERATION ^ 2
  · constructor
    · simp only [Instruction.make, if_pos h]
      rw [hM]
      have c1 := clip_bounds ((vx * MAX_ACCELERATION).fdiv (euclidean_distance vx vy 0 0))
        (-MAX_ACCELERATION) MAX_ACCELERATION (by rw [hM]; omega)
      have c2 := clip_bounds ((vy * MAX_ACCELERATION).fdiv (euclidean_distance vx vy 0 0))
        (-MAX_ACCELERATION) MAX_ACCELERATION (by rw [hM]; omega)
      rw [hM] at c1 c2
      rw [toInt8_eq_of_bounds _ (by omega) (by omega)]
      rw [toInt8_eq_of_bounds _ (by omega) (by omega)]
      exact ⟨by omega, by omega, by omega, by omega⟩
    · intro hle
      rw [distance_squared_zero] at h
      exact absurd hle (not_le.mpr h)
  · have hnb : ¬ (vx ^ 2 + vy ^ 2 > MAX_ACCELERATION ^ 2) := by
      rw [distance_squared_zero] at h
      exact h
    rw [hM] at hnb
    have h127 : (127 : Int) ^ 2 = 16129 := by norm_num
    rw [h127] at hnb
    have hvx : -127 ≤ vx ∧ vx ≤ 127 := by
      constructor <;> nlinarith [sq_nonneg vy, sq_nonneg (vx - 127), sq_nonneg (vx + 127)]
    have hvy : -127 ≤ vy ∧ vy ≤ 127 := by
      constructor <;> nlinarith [sq_nonneg vx, sq_nonneg (vy - 127), sq_nonneg (vy + 127)]
    have e1 : Instruction.make vx vy = Instruction.mk vx vy := by
      simp only [Instruction.make, if_neg h]
      rw [toInt8_eq_of_bounds vx (by omega) (by omega)]
      rw [toInt8_eq_of_bounds vy (by omega) (by omega)]
    refine ⟨?_, fun _ => ⟨e1, ?_⟩⟩
    · rw [e1]
      exact ⟨hvx.1, hvx.2, hvy.1, hvy.2⟩
    · rw [e1]
      exact e1

/-- Claim C2, witness for the amended statement at the in-disk
proposal (3, 4). -/
theorem claim_C2_witness :
    ((3 : Int) ^ 2 + 4 ^ 2 ≤ MAX_ACCELERATION ^ 2) ∧
    (Instruction.make 3 4 = Instruction.mk 3 4 ∧
      Instruction.make (Instruction.make 3 4).vx (Instruction.make 3 4).vy
        = Instruction.make 3 4) :=
  ⟨by decide, (claim_C2_amended 3 4).2 (by decide)⟩

/-- Claim C8: the convenience constructors store (0, -127), (0, 127),
(-127, 0), (127, 0); up and left normalize the int8 minimum -128 used
in their definitions down to -127. -/
theorem claim_C8 :
    Instruction.up = Instruction.mk 0 (-127) ∧
    Instruction.down = Instruction.mk 0 127 ∧
    Instruction.left = Instruction.mk (-127) 0 ∧
    Instruction.right = Instruction.mk 127 0 := by
  decide

/-- Claim C9: the graph builder predicate compares the y coordinate
against the x limits of the box; at the box with x range [0, 5] and
y range [10, 20] and the point (0, 0) it answers true while the
spec predicate (each coordinate against its own axis) answers false. -/
theorem claim_C9_eval :
    is_point_in_bounds (BoundingBox.mk 0 10 5 20) (0, 0) = true ∧
    is_point_in_bounds_spec (BoundingBox.mk 0 10 5 20) (0, 0) = false := by
  decide

/-- Claim C4, counterexample: drag is Python floor division, which
rounds toward negative infinity, so a racer with vx = -5 keeps vx = -5
after a drag-only tick step, while truncation toward zero would
give -4. -/
theorem claim_C4_counterexample :
    (drag_sim.move_racer idle).racer.vx = -5 ∧
    Int.tdiv ((-5) * 9) 10 = -4 ∧
    (drag_sim.move_racer idle).racer.vx ≠ Int.tdiv ((-5) * 9) 10 := by
  decide

/-- Claim C4, amended: the drag step multiplies each velocity
component by 9 and floor-divides by 10 (rounding toward negative
infinity, as the Python // operator does); for vx = -5 the dragged
value is -5, not -4. -/
theorem claim_C4_amended (s : Simulation) (i : Instruction) :
    (s.move_racer i).racer.vx = (s.racer.vx * 9).fdiv 10 + i.vx ∧
    (s.move_racer i).racer.vy = (s.racer.vy * 9).fdiv 10 + i.vy ∧
    (s.move_racer i).racer.x = s.racer.x + ((s.racer.vx * 9).fdiv 10 + i.vx) ∧
    (s.move_racer i).racer.y = s.racer.y + ((s.racer.vy * 9).fdiv 10 + i.vy) ∧
    ((-5 : Int) * 9).fdiv 10 = -5 := by
  exact ⟨rfl, rfl, rfl, rfl, by decide⟩

theorem move_racer_fields (s : Simulation) (i : Instruction) :
    (s.move_racer i).initial_racer = s.initial_racer ∧
    (s.move_racer i).asteroids = s.asteroids ∧
    (s.move_racer i).goals = s.goals ∧
    (s.move_racer i).bounding_box = s.bounding_box ∧
    (s.move_racer i).grid = s.grid ∧
    (s.move_racer i).coordinate_to_grid = s.coordinate_to_grid ∧
    (s.move_racer i).reached_goals = s.reached_goals ∧
    (s.move_racer i).pushed_states = s.pushed_states ∧
    (s.move_racer i).racer.radius = s.racer.radius :=
  ⟨rfl, rfl, rfl, rfl, rfl, rfl, rfl, rfl, rfl⟩

theorem push_out_asteroid_racer (r : Racer) (a : Asteroid) :
    (r.push_out_asteroid a).1.radius = r.radius ∧
    (r.push_out_asteroid a).1.vx = r.vx ∧
    (r.push_out_asteroid a).1.vy = r.vy := by
  unfold Racer.push_out_asteroid
  split <;> exact ⟨rfl, rfl, rfl⟩

theorem push_out_bounding_racer (r : Racer) (bb : BoundingBox) :
    (r.push_out_bounding bb).1.radius = r.radius ∧
    (r.push_out_bounding bb).1.vx = r.vx ∧
    (r.push_out_bounding bb).1.vy = r.vy :=
  ⟨rfl, rfl, rfl⟩

theorem push_out_first_racer (r : Racer) (l : List Asteroid) :
    (r.push_out_first l).1.radius = r.radius ∧
    (r.push_out_first l).1.vx = r.vx ∧
    (r.push_out_first l).1.vy = r.vy := by
  induction l with
  | nil => exact ⟨rfl, rfl, rfl⟩
  | cons a rest ih =>
    have ha := push_out_asteroid_racer r a
    cases hp : (r.push_out_asteroid a).2 with
    | false => simpa [Racer.push_out_first, hp] using ih
    | true => simpa [Racer.push_out_first, hp] using ha

theorem resolve_pass_frame (s : Simulation) :
    (s.resolve_pass).1.initial_racer = s.initial_racer ∧
    (s.resolve_pass).1.asteroids = s.asteroids ∧
    (s.resolve_pass).1.goals = s.goals ∧
    (s.resolve_pass).1.bounding_box = s.bounding_box ∧
    (s.resolve_pass).1.grid = s.grid ∧
    (s.resolve_pass).1.coordinate_to_grid = s.coordinate_to_grid ∧
    (s.resolve_pass).1.reached_goals = s.reached_goals ∧
    (s.resolve_pass).1.pushed_states = s.pushed_states :=
  ⟨rfl, rfl, rfl, rfl, rfl, rfl, rfl, rfl⟩

theorem resolve_pass_racer (s : Simulation) :
    (s.resolve_pass).1.racer.radius = s.racer.radius ∧
    (s.resolve_pass).1.racer.vx = s.racer.vx ∧
    (s.resolve_pass).1.racer.vy = s.racer.vy := by
  obtain ⟨h1, h2, h3⟩ :=
    push_out_first_racer s.racer (s.grid (s.coordinate_to_grid s.racer.x s.racer.y))
  cases hbb : s.bounding_box with
  | none =>
    simp only [Simulation.resolve_pass, hbb]
    exact ⟨h1, h2, h3⟩
  | some bb =>
    simp only [Simulation.resolve_pass, hbb]
    exact ⟨h1, h2, h3⟩

theorem resolve_loop_parts (n : Nat) : ∀ (s : Simulation) (c : Bool),
    (Simulation.resolve_loop n s c).1.initial_racer = s.initial_racer ∧
    (Simulation.resolve_loop n s c).1.asteroids = s.asteroids ∧
    (Simulation.resolve_loop n s c).1.goals = s.goals ∧
    (Simulation.resolve_loop n s c).1.bounding_box = s.bounding_box ∧
    (Simulation.resolve_loop n s c).1.grid = s.grid ∧
    (Simulation.resolve_loop n s c).1.coordinate_to_grid = s.coordinate_to_grid ∧
    (Simulation.resolve_loop n s c).1.reached_goals = s.reached_goals ∧
    (Simulation.resolve_loop n s c).1.pushed_states = s.pushed_states ∧
    (Simulation.resolve_loop n s c).1.racer.radius = s.racer.radius ∧
    (Simulation.resolve_loop n s c).1.racer.vx = s.racer.vx ∧
    (Simulation.resolve_loop n s c).1.racer.vy = s.racer.vy := by
  induction n with
  | zero =>
    intro s c
    exact ⟨rfl, rfl, rfl, rfl, rfl, rfl, rfl, rfl, rfl, rfl, rfl⟩
  | succ n ih =>
    intro s c
    obtain ⟨f1, f2, f3, f4, f5, f6, f7, f8⟩ := resolve_pass_frame s
    obtain ⟨r1, r2, r3⟩ := resolve_pass_racer s
    cases hp : (s.resolve_pass).2 with
    | false =>
      simp only [Simulation.resolve_loop, hp, Bool.false_eq_true, if_false]
      exact ⟨f1, f2, f3, f4, f5, f6, f7, f8, r1, r2, r3⟩
    | true =>
      simp only [Simulation.resolve_loop, hp, if_true]
      obtain ⟨g1, g2, g3, g4, g5, g6, g7, g8, g9, g10, g11⟩ := ih (s.resolve_pass).1 true
      exact ⟨g1.trans f1, g2.trans f2, g3.trans f3, g4.trans f4, g5.trans f5,
        g6.trans f6, g7.trans f7, g8.trans f8, g9.trans r1, g10.trans r2, g11.trans r3⟩

theorem resolve_collisions_parts (s : Simulation) :
    (s.resolve_collisions).1.initial_racer = s.initial_racer ∧
    (s.resolve_collisions).1.asteroids = s.asteroids ∧
    (s.resolve_collisions).1.goals = s.goals ∧
    (s.resolve_collisions).1.bounding_box = s.bounding_box ∧
    (s.resolve_collisions).1.grid = s.grid ∧
    (s.resolve_collisions).1.coordinate_to_grid = s.coordinate_to_grid ∧
    (s.resolve_collisions).1.reached_goals = s.reached_goals ∧
    (s.resolve_collisions).1.pushed_states = s.pushed_states ∧
    (s.resolve_collisions).1.racer.radius = s.racer.radius := by
  obtain ⟨g1, g2, g3, g4, g5, g6, g7, g8, g9, -, -⟩ :=
    resolve_loop_parts MAX_COLLISION_RESOLUTIONS s false
  cases hp : (Simulation.resolve_loop MAX_COLLISION_RESOLUTIONS s false).2 with
  | false =>
    simp only [Simulation.resolve_collisions, hp, Bool.false_eq_true, if_false]
    exact ⟨g1, g2, g3, g4, g5, g6, g7, g8, g9⟩
  | true =>
    simp only [Simulation.resolve_collisions, hp, if_true]
    exact ⟨g1, g2, g3, g4, g5, g6, g7, g8, g9⟩

theorem resolve_collisions_racer_pos (s : Simulation) :
    (s.resolve_collisions).1.racer.x
      = (Simulation.resolve_loop MAX_COLLISION_RESOLUTIONS s false).1.racer.x ∧
    (s.resolve_collisions).1.racer.y
      = (Simulation.resolve_loop MAX_COLLISION_RESOLUTIONS s false).1.racer.y := by
  cases hp : (Simulation.resolve_loop MAX_COLLISION_RESOLUTIONS s false).2 with
  | false =>
    simp [Simulation.resolve_collisions, hp]
  | true =>
    simp [Simulation.resolve_collisions, hp]

theorem resolve_collisions_flag (s : Simulation) :
    (s.resolve_collisions).2
      = (Simulation.resolve_loop MAX_COLLISION_RESOLUTIONS s false).2 := by
  cases hp : (Simulation.resolve_loop MAX_COLLISION_RESOLUTIONS s false).2 with
  | false =>
    simp only [Simulation.resolve_collisions, hp, Bool.false_eq_true, if_false]
  | true =>
    simp only [Simulation.resolve_collisions, hp, if_true]

theorem check_goal_frame (s : Simulation) :
    (s.check_goal).1.initial_racer = s.initial_racer ∧
    (s.check_goal).1.racer = s.racer ∧
    (s.check_goal).1.asteroids = s.asteroids ∧
    (s.check_goal).1.goals = s.goals ∧
    (s.check_goal).1.bounding_box = s.bounding_box ∧
    (s.check_goal).1.grid = s.grid ∧
    (s.check_goal).1.coordinate_to_grid = s.coordinate_to_grid ∧
    (s.check_goal).1.pushed_states = s.pushed_states :=
  ⟨rfl, rfl, rfl, rfl, rfl, rfl, rfl, rfl⟩

theorem tick_fields (s : Simulation) (i : Instruction) :
    (s.tick i).1.initial_racer = s.initial_racer ∧
    (s.tick i).1.asteroids = s.asteroids ∧
    (s.tick i).1.goals = s.goals ∧
    (s.tick i).1.bounding_box = s.bounding_box ∧
    (s.tick i).1.grid = s.grid ∧
    (s.tick i).1.coordinate_to_grid = s.coordinate_to_grid ∧
    (s.tick i).1.pushed_states = s.pushed_states ∧
    (s.tick i).1.racer.radius = s.racer.radius := by
  obtain ⟨c1, c2, c3, c4, c5, c6, -, c8, c9⟩ := resolve_collisions_parts (s.move_racer i)
  exact ⟨c1, c2, c3, c4, c5, c6, c8, c9⟩

theorem check_goal_list_monotone (r : Racer) :
    ∀ (gs : List Goal) (bs : List Bool) (idx : Nat),
      bs[idx]? = some true → (check_goal_list r gs bs).1[idx]? = some true := by
  intro gs
  induction gs with
  | nil =>
    intro bs idx h
    simpa [check_goal_list] using h
  | cons g gs ih =>
    intro bs idx h
    cases bs with
    | nil => simp at h
    | cons b bs =>
      by_cases hhit : distance_squared r.x r.y g.x g.y ≤ (r.radius + g.radius) ^ 2
      · cases idx with
        | zero => simp [check_goal_list, hhit]
        | succ idx =>
          simpa [check_goal_list, hhit] using ih bs idx (by simpa using h)
      · cases idx with
        | zero => simpa [check_goal_list, hhit] using h
        | succ idx =>
          simpa [check_goal_list, hhit] using ih bs idx (by simpa using h)

theorem tick_reached_goals (s : Simulation) (i : Instruction) :
    (s.tick i).1.reached_goals
      = (check_goal_list ((s.move_racer i).resolve_collisions).1.racer
          s.goals s.reached_goals).1 := by
  obtain ⟨-, -, g3, -, -, -, g7, -, -⟩ := resolve_collisions_parts (s.move_racer i)
  have hg : ((s.move_racer i).resolve_collisions).1.goals = s.goals := g3
  have hr : ((s.move_racer i).resolve_collisions).1.reached_goals = s.reached_goals := g7
  show (check_goal_list ((s.move_racer i).resolve_collisions).1.racer
      ((s.move_racer i).resolve_collisions).1.goals
      ((s.move_racer i).resolve_collisions).1.reached_goals).1
    = (check_goal_list ((s.move_racer i).resolve_collisions).1.racer
        s.goals s.reached_goals).1
  rw [hg, hr]

theorem run_ticks_pushed (l : List Instruction) : ∀ s : Simulation,
    (s.run_ticks l).pushed_states = s.pushed_states := by
  induction l with
  | nil => intro s; rfl
  | cons i rest ih =>
    intro s
    have h := (tick_fields s i).2.2.2.2.2.2.1
    calc (s.run_ticks (i :: rest)).pushed_states
        = ((s.tick i).1.run_ticks rest).pushed_states := rfl
      _ = (s.tick i).1.pushed_states := ih (s.tick i).1
      _ = s.pushed_states := h

theorem tick_collided_iff (s : Simulation) (i : Instruction) :
    ((s.tick i).2 &&& TickFlag.COLLIDED ≠ 0)
      ↔ ((s.move_racer i).resolve_collisions).2 = true := by
  cases hc : ((s.move_racer i).resolve_collisions).2 <;>
    cases hg : (((s.move_racer i).resolve_collisions).1.check_goal).2 <;>
      simp [Simulation.tick, hc, hg, TickFlag.COLLIDED, TickFlag.GOAL_REACHED]

theorem push_out_bounding_contains (r : Racer) (bb : BoundingBox)
    (hx : 2 * r.radius ≤ bb.max_x - bb.min_x)
    (hy : 2 * r.radius ≤ bb.max_y - bb.min_y) :
    bb.containsRacer (r.push_out_bounding bb).1 := by
  simp only [Racer.push_out_bounding, BoundingBox.containsRacer]
  refine ⟨?_, ?_, ?_, ?_⟩ <;> (split_ifs <;> omega)

theorem resolve_pass_contains (s : Simulation) (bb : BoundingBox)
    (hbb : s.bounding_box = some bb)
    (hx : 2 * s.racer.radius ≤ bb.max_x - bb.min_x)
    (hy : 2 * s.racer.radius ≤ bb.max_y - bb.min_y) :
    bb.containsRacer (s.resolve_pass).1.racer := by
  obtain ⟨hrad, -, -⟩ :=
    push_out_first_racer s.racer (s.grid (s.coordinate_to_grid s.racer.x s.racer.y))
  simp only [Simulation.resolve_pass, hbb]
  exact push_out_bounding_contains _ bb (by rw [hrad]; exact hx) (by rw [hrad]; exact hy)

theorem resolve_loop_contains (n : Nat) : ∀ (s : Simulation) (c : Bool) (bb : BoundingBox),
    s.bounding_box = some bb →
    2 * s.racer.radius ≤ bb.max_x - bb.min_x →
    2 * s.racer.radius ≤ bb.max_y - bb.min_y →
    bb.containsRacer (Simulation.resolve_loop (n + 1) s c).1.racer := by
  induction n with
  | zero =>
    intro s c bb hbb hx hy
    have h := resolve_pass_contains s bb hbb hx hy
    cases hp : (s.resolve_pass).2 <;>
      simpa [Simulation.resolve_loop, hp] using h
  | succ n ih =>
    intro s c bb hbb hx hy
    cases hp : (s.resolve_pass).2 with
    | false =>
      have h := resolve_pass_contains s bb hbb hx hy
      simpa [Simulation.resolve_loop, hp] using h
    | true =>
      have hrec := ih (s.resolve_pass).1 true bb
        (by rw [(resolve_pass_frame s).2.2.2.1]; exact hbb)
        (by rw [(resolve_pass_racer s).1]; exact hx)
        (by rw [(resolve_pass_racer s).1]; exact hy)
      simpa [Simulation.resolve_loop, hp] using hrec

/-- Claim C3: the loader reads the third token of the bounding-box
line into both max_x and max_y, so the saved box (0, 0, 3, 7) loads
back as (0, 0, 3, 3); racer, asteroids and goals do round-trip. -/
theorem claim_C3_eval :
    roundtrip_sim.bounding_box = some (BoundingBox.mk 0 0 3 7) ∧
    Option.map (fun t => t.bounding_box) (roundtrip_sim.save.bind Simulation.load)
      = some (some (BoundingBox.mk 0 0 3 3)) ∧
    Option.map (fun t => (t.racer, t.asteroids, t.goals))
        (roundtrip_sim.save.bind Simulation.load)
      = some (roundtrip_sim.racer, roundtrip_sim.asteroids, roundtrip_sim.goals) := by
  decide

/-- Claim C1, counterexample: in a 1-by-1 bounding box a racer of
radius 1 cannot fit, and after a tick the racer disk still sticks out
of the box on the left. -/
theorem claim_C1_counterexample :
    tiny_sim.bounding_box = some (BoundingBox.mk 0 0 1 1) ∧
    (tiny_sim.tick idle).1.racer.x - (tiny_sim.tick idle).1.racer.radius < 0 := by
  decide

/-- Claim C1, amended: after any completed tick on a state whose
bounding box is wide and tall enough to fit the racer disk
(2 * radius at most each side length), the racer disk lies inside the
bounding box. -/
theorem claim_C1_amended (s : Simulation) (i : Instruction) (bb : BoundingBox)
    (hbb : s.bounding_box = some bb)
    (hx : 2 * s.racer.radius ≤ bb.max_x - bb.min_x)
    (hy : 2 * s.racer.radius ≤ bb.max_y - bb.min_y) :
    bb.min_x ≤ (s.tick i).1.racer.x - (s.tick i).1.racer.radius ∧
    (s.tick i).1.racer.x + (s.tick i).1.racer.radius ≤ bb.max_x ∧
    bb.min_y ≤ (s.tick i).1.racer.y - (s.tick i).1.racer.radius ∧
    (s.tick i).1.racer.y + (s.tick i).1.racer.radius ≤ bb.max_y := by
  have hcon := resolve_loop_contains 4 (s.move_racer i) false bb hbb hx hy
  have hcon5 : bb.containsRacer
      (Simulation.resolve_loop MAX_COLLISION_RESOLUTIONS (s.move_racer i) false).1.racer :=
    hcon
  obtain ⟨ex, ey⟩ := resolve_collisions_racer_pos (s.move_racer i)
  obtain ⟨-, -, -, -, -, -, -, -, er⟩ := resolve_collisions_parts (s.move_racer i)
  obtain ⟨-, -, -, -, -, -, -, -, lr, -, -⟩ :=
    resolve_loop_parts MAX_COLLISION_RESOLUTIONS (s.move_racer i) false
  obtain ⟨c1, c2, c3, c4⟩ := hcon5
  have er2 : ((s.move_racer i).resolve_collisions).1.racer.radius
      = (Simulation.resolve_loop MAX_COLLISION_RESOLUTIONS (s.move_racer i) false).1.racer.radius := by
    rw [er, lr]
  show bb.min_x ≤ ((s.move_racer i).resolve_collisions).1.racer.x
        - ((s.move_racer i).resolve_collisions).1.racer.radius ∧
    ((s.move_racer i).resolve_collisions).1.racer.x
        + ((s.move_racer i).resolve_collisions).1.racer.radius ≤ bb.max_x ∧
    bb.min_y ≤ ((s.move_racer i).resolve_collisions).1.racer.y
        - ((s.move_racer i).resolve_collisions).1.racer.radius ∧
    ((s.move_racer i).resolve_collisions).1.racer.y
        + ((s.move_racer i).resolve_collisions).1.racer.radius ≤ bb.max_y
  rw [ex, ey, er2]
  exact ⟨c1, c2, c3, c4⟩

/-- Claim C1, witness for the amended statement: a radius 1 racer at
the center of a 10-by-10 box stays contained after a tick. -/
theorem claim_C1_witness :
    (boxed_sim.bounding_box = some (BoundingBox.mk 0 0 10 10) ∧
      2 * boxed_sim.racer.radius ≤ (10 : Int) - 0 ∧
      2 * boxed_sim.racer.radius ≤ (10 : Int) - 0) ∧
    ((0 : Int) ≤ (boxed_sim.tick idle).1.racer.x - (boxed_sim.tick idle).1.racer.radius ∧
      (boxed_sim.tick idle).1.racer.x + (boxed_sim.tick idle).1.racer.radius ≤ 10 ∧
      (0 : Int) ≤ (boxed_sim.tick idle).1.racer.y - (boxed_sim.tick idle).1.racer.radius ∧
      (boxed_sim.tick idle).1.racer.y + (boxed_sim.tick idle).1.racer.radius ≤ 10) :=
  ⟨⟨rfl, by decide, by decide⟩,
    claim_C1_amended boxed_sim idle (BoundingBox.mk 0 0 10 10) rfl (by decide) (by decide)⟩

/-- Claim C5: when a tick reports COLLIDED, the collision passes never
changed the velocity (it still equals the post-drag post-acceleration
velocity), and the post-tick velocity is the floor of half of it,
applied exactly once. -/
theorem claim_C5 (s : Simulation) (i : Instruction)
    (h : (s.tick i).2 &&& TickFlag.COLLIDED ≠ 0) :
    (Simulation.resolve_loop MAX_COLLISION_RESOLUTIONS (s.move_racer i) false).1.racer.vx
        = (s.move_racer i).racer.vx ∧
    (Simulation.resolve_loop MAX_COLLISION_RESOLUTIONS (s.move_racer i) false).1.racer.vy
        = (s.move_racer i).racer.vy ∧
    (s.tick i).1.racer.vx = Int.fdiv
        (Simulation.resolve_loop MAX_COLLISION_RESOLUTIONS (s.move_racer i) false).1.racer.vx 2 ∧
    (s.tick i).1.racer.vy = Int.fdiv
        (Simulation.resolve_loop MAX_COLLISION_RESOLUTIONS (s.move_racer i) false).1.racer.vy 2 := by
  obtain ⟨-, -, -, -, -, -, -, -, -, lv1, lv2⟩ :=
    resolve_loop_parts MAX_COLLISION_RESOLUTIONS (s.move_racer i) false
  have hc : ((s.move_racer i).resolve_collisions).2 = true :=
    (tick_collided_iff s i).mp h
  have hflag : (Simulation.resolve_loop MAX_COLLISION_RESOLUTIONS (s.move_racer i) false).2
      = true := by
    rw [← resolve_collisions_flag]
    exact hc
  refine ⟨lv1, lv2, ?_, ?_⟩
  · show ((s.move_racer i).resolve_collisions).1.racer.vx = _
    simp [Simulation.resolve_collisions, hflag, mul_one]
  · show ((s.move_racer i).resolve_collisions).1.racer.vy = _
    simp [Simulation.resolve_collisions, hflag, mul_one]

/-- Claim C5, witness: the tiny-box state collides on its first tick
and its velocities obey the halving equations. -/
theorem claim_C5_witness :
    ((tiny_sim.tick idle).2 &&& TickFlag.COLLIDED ≠ 0) ∧
    ((Simulation.resolve_loop MAX_COLLISION_RESOLUTIONS (tiny_sim.move_racer idle) false).1.racer.vx
        = (tiny_sim.move_racer idle).racer.vx ∧
      (Simulation.resolve_loop MAX_COLLISION_RESOLUTIONS (tiny_sim.move_racer idle) false).1.racer.vy
        = (tiny_sim.move_racer idle).racer.vy ∧
      (tiny_sim.tick idle).1.racer.vx = Int.fdiv
        (Simulation.resolve_loop MAX_COLLISION_RESOLUTIONS (tiny_sim.move_racer idle) false).1.racer.vx 2 ∧
      (tiny_sim.tick idle).1.racer.vy = Int.fdiv
        (Simulation.resolve_loop MAX_COLLISION_RESOLUTIONS (tiny_sim.move_racer idle) false).1.racer.vy 2) :=
  ⟨by decide, claim_C5 tiny_sim idle (by decide)⟩

/-- Claim C6, counterexample: push, reach the goal with a tick, pop;
the reached flag transitions from true back to false under pop. -/
theorem claim_C6_counterexample :
    (goal_sim.push.tick idle).1.reached_goals = [true] ∧
    Option.map Simulation.reached_goals ((goal_sim.push.tick idle).1.pop)
      = some [false] := by
  decide

/-- Claim C6, amended: a reached flag never transitions from true to
false under tick or push; pop and apply install the pushed snapshot
(which may have fewer reached goals), and restart clears the flags. -/
theorem claim_C6_amended (s : Simulation) (i : Instruction) (idx : Nat)
    (h : s.reached_goals[idx]? = some true) :
    (s.tick i).1.reached_goals[idx]? = some true ∧
    s.push.reached_goals[idx]? = some true := by
  refine ⟨?_, h⟩
  rw [tick_reached_goals]
  exact check_goal_list_monotone _ s.goals s.reached_goals idx h

/-- Claim C6, witness: after the goal is reached, another tick and a
push both keep the flag set. -/
theorem claim_C6_witness :
    ((goal_sim.tick idle).1.reached_goals[0]? = some true) ∧
    (((goal_sim.tick idle).1.tick idle).1.reached_goals[0]? = some true ∧
      ((goal_sim.tick idle).1.push).reached_goals[0]? = some true) :=
  ⟨by decide, claim_C6_amended (goal_sim.tick idle).1 idle 0 (by decide)⟩

/-- Claim C7: push, any tick sequence, then pop restores racer and
reached goals and the stack to their values at the push; apply
restores them but keeps the pushed entry on the stack. -/
theorem claim_C7 (s : Simulation) (l : List Instruction) :
    Option.map (fun t => (t.racer, t.reached_goals, t.pushed_states))
        ((s.push.run_ticks l).pop)
      = some (s.racer, s.reached_goals, s.pushed_states) ∧
    Option.map (fun t => (t.racer, t.reached_goals, t.pushed_states))
        ((s.push.run_ticks l).apply)
      = some (s.racer, s.reached_goals, (s.racer, s.reached_goals) :: s.pushed_states) := by
  have hps : (s.push.run_ticks l).pushed_states
      = (s.racer, s.reached_goals) :: s.pushed_states := run_ticks_pushed l s.push
  constructor
  · simp [Simulation.pop, hps]
  · simp [Simulation.apply, hps]

/-- Claim C10: tick, restart, push, pop and apply keep the asteroid
list, goal list, bounding box, grid data and initial racer; tick and
restart touch only racer position and velocity and the reached flags;
the racer radius is never changed (for pop and apply this needs the
stacked snapshots to carry the current radius, which every reachable
state satisfies since no operation writes the radius). -/
theorem claim_C10 (s : Simulation) (i : Instruction) :
    ((s.tick i).1.asteroids = s.asteroids ∧ (s.tick i).1.goals = s.goals ∧
      (s.tick i).1.bounding_box = s.bounding_box ∧ (s.tick i).1.grid = s.grid ∧
      (s.tick i).1.coordinate_to_grid = s.coordinate_to_grid ∧
      (s.tick i).1.initial_racer = s.initial_racer ∧
      (s.tick i).1.pushed_states = s.pushed_states ∧
      (s.tick i).1.racer.radius = s.racer.radius) ∧
    (s.restart.asteroids = s.asteroids ∧ s.restart.goals = s.goals ∧
      s.restart.bounding_box = s.bounding_box ∧ s.restart.grid = s.grid ∧
      s.restart.coordinate_to_grid = s.coordinate_to_grid ∧
      s.restart.initial_racer = s.initial_racer ∧
      s.restart.pushed_states = s.pushed_states ∧
      s.restart.racer.radius = s.racer.radius) ∧
    (s.push.asteroids = s.asteroids ∧ s.push.goals = s.goals ∧
      s.push.bounding_box = s.bounding_box ∧ s.push.grid = s.grid ∧
      s.push.coordinate_to_grid = s.coordinate_to_grid ∧
      s.push.initial_racer = s.initial_racer ∧
      s.push.racer = s.racer ∧ s.push.reached_goals = s.reached_goals) ∧
    (∀ t, s.pop = some t →
      t.asteroids = s.asteroids ∧ t.goals = s.goals ∧
      t.bounding_box = s.bounding_box ∧ t.grid = s.grid ∧
      t.coordinate_to_grid = s.coordinate_to_grid ∧
      t.initial_racer = s.initial_racer) ∧
    (∀ t, s.apply = some t →
      t.asteroids = s.asteroids ∧ t.goals = s.goals ∧
      t.bounding_box = s.bounding_box ∧ t.grid = s.grid ∧
      t.coordinate_to_grid = s.coordinate_to_grid ∧
      t.initial_racer = s.initial_racer) ∧
    (s.radiusUniform →
      (∀ t, s.pop = some t → t.racer.radius = s.racer.radius) ∧
      (∀ t, s.apply = some t → t.racer.radius = s.racer.radius)) := by
  obtain ⟨t1, t2, t3, t4, t5, t6, t7, t8⟩ := tick_fields s i
  refine ⟨⟨t2, t3, t4, t5, t6, t1, t7, t8⟩,
    ⟨rfl, rfl, rfl, rfl, rfl, rfl, rfl, rfl⟩,
    ⟨rfl, rfl, rfl, rfl, rfl, rfl, rfl, rfl⟩, ?_, ?_, ?_⟩
  · intro t h
    cases hs : s.pushed_states with
    | nil => simp [Simulation.pop, hs] at h
    | cons p rest =>
      simp only [Simulation.pop, hs, Option.some.injEq] at h
      subst h
      exact ⟨rfl, rfl, rfl, rfl, rfl, rfl⟩
  · intro t h
    cases hs : s.pushed_states with
    | nil => simp [Simulation.apply, hs] at h
    | cons p rest =>
      simp only [Simulation.apply, hs, Option.some.injEq] at h
      subst h
      exact ⟨rfl, rfl, rfl, rfl, rfl, rfl⟩
  · intro hu
    constructor
    · intro t h
      cases hs : s.pushed_states with
      | nil => simp [Simulation.pop, hs] at h
      | cons p rest =>
        simp only [Simulation.pop, hs, Option.some.injEq] at h
        subst h
        exact hu p (by rw [hs]; exact List.mem_cons_self p rest)
    · intro t h
      cases hs : s.pushed_states with
      | nil => simp [Simulation.apply, hs] at h
      | cons p rest =>
        simp only [Simulation.apply, hs, Option.some.injEq] at h
        subst h
        exact hu p (by rw [hs]; exact List.mem_cons_self p rest)

/-- Claim C10, witness: a state with one pushed snapshot; pop
restores it and the radius is preserved. -/
theorem claim_C10_witness :
    goal_sim.push.radiusUniform ∧
    goal_sim.push.pop = some goal_sim ∧
    goal_sim.racer.radius = goal_sim.push.racer.radius :=
  ⟨by decide, rfl,
    ((claim_C10 goal_sim.push idle).2.2.2.2.2 (by decide)).1 goal_sim rfl⟩

end Asteracer
